import Mathlib

/-!
# Verification of the node-uploads upload-orchestration library

Shallow embedding of the library's path handling (`src/lib/utils.ts`,
`src/lib/defaults.ts`), the `Uploads` service (`src/lib/Uploads.ts`) and the
temp-file helper, together with theorems settling the specification claims.

Strings are modelled through their character lists (`String.data`); byte
sequences stored on disks are abstracted to numeric content identifiers;
the external collaborators (disks, repository) are modelled as explicit
state plus a success/failure oracle for every external call, and every
operation additionally returns the list of externally visible effects it
performed, in order.
-/

namespace NodeUploads

/-! ## Character classes

`jsWhitespace` is the set matched by `\s` in a JavaScript regular expression
(ECMAScript WhiteSpace plus LineTerminator), which is also exactly the set
trimmed by `String.prototype.trim`. -/

/-- The code points matched by `\s` in a JS regex / trimmed by `trim()`:
TAB, LF, VT, FF, CR, SP, NBSP, OGHAM, U+2000..U+200A, LS, PS, NNBSP, MMSP,
IDEOGRAPHIC SPACE, BOM. -/
def jsWhitespace (c : Char) : Bool :=
  decide (c.toNat = 9) || decide (c.toNat = 10) || decide (c.toNat = 11) ||
  decide (c.toNat = 12) || decide (c.toNat = 13) || decide (c.toNat = 32) ||
  decide (c.toNat = 160) || decide (c.toNat = 5760) ||
  decide (8192 ≤ c.toNat ∧ c.toNat ≤ 8202) ||
  decide (c.toNat = 8232) || decide (c.toNat = 8233) ||
  decide (c.toNat = 8239) || decide (c.toNat = 8287) ||
  decide (c.toNat = 12288) || decide (c.toNat = 65279)

/-- The character class `[A-Za-z0-9\-_.]` kept by `defaultSanitizeFilename`
(codes 65..90, 97..122, 48..57, and `-` 45, `_` 95, `.` 46). -/
def allowedChar (c : Char) : Bool :=
  decide (65 ≤ c.toNat ∧ c.toNat ≤ 90) ||
  decide (97 ≤ c.toNat ∧ c.toNat ≤ 122) ||
  decide (48 ≤ c.toNat ∧ c.toNat ≤ 57) ||
  decide (c.toNat = 45) || decide (c.toNat = 95) || decide (c.toNat = 46)

theorem allowedChar_not_jsWhitespace {c : Char} (h : allowedChar c = true) :
    jsWhitespace c = false := by
  simp only [allowedChar, Bool.or_eq_true, decide_eq_true_eq] at h
  simp only [jsWhitespace, Bool.or_eq_false_iff, decide_eq_false_iff_not]
  omega

/-- ECMAScript `str.trim()` / both-sides regex trimming over a predicate:
drop the maximal run satisfying `p` from the front and from the back. -/
def trimBy (p : Char → Bool) (l : List Char) : List Char :=
  ((l.dropWhile p).reverse.dropWhile p).reverse

/-- `src/lib/utils.ts` `trimPath`:
`path.replace(/(^(\s|\/)+|(\s|\/)+$)/g, '')` — remove all whitespace and
slashes from the beginning and end of a string. -/
def trimPath (s : String) : String :=
  String.mk (trimBy (fun c => jsWhitespace c || decide (c = '/')) s.data)

/-- The per-character replacement of
`.replace(/[^A-Za-z0-9\-_.]/g, '__')`: keep an allowed character, replace
any other single character with two underscores. -/
def sanitizeChars : List Char → List Char
  | [] => []
  | c :: cs => (if allowedChar c then [c] else ['_', '_']) ++ sanitizeChars cs

/-- `src/lib/defaults.ts` `defaultSanitizeFilename`:
`` `${uploadedAs}`.trim().replace(/[^A-Za-z0-9\-_.]/g, '__') ``. -/
def defaultSanitizeFilename (uploadedAs : String) : String :=
  String.mk (sanitizeChars (trimBy jsWhitespace uploadedAs.data))

theorem mem_sanitizeChars {c : Char} {l : List Char} (h : c ∈ sanitizeChars l) :
    allowedChar c = true := by
  induction l with
  | nil => simp [sanitizeChars] at h
  | cons a as ih =>
    simp only [sanitizeChars, List.mem_append] at h
    rcases h with h | h
    · split at h
      · next ha => rw [List.mem_singleton] at h; subst h; exact ha
      · next =>
        have hc : c = '_' := by
          rcases List.mem_cons.mp h with h1 | h1
          · exact h1
          · simpa using h1
        subst hc; decide
    · exact ih h

theorem dropWhile_eq_self_of_all {p : Char → Bool} {l : List Char}
    (h : ∀ c ∈ l, p c = false) : l.dropWhile p = l := by
  cases l with
  | nil => rfl
  | cons a as => simp [List.dropWhile_cons, h a (List.mem_cons_self a as)]

theorem trimBy_eq_self_of_all {p : Char → Bool} {l : List Char}
    (h : ∀ c ∈ l, p c = false) : trimBy p l = l := by
  unfold trimBy
  rw [dropWhile_eq_self_of_all h,
    dropWhile_eq_self_of_all (by intro c hc; exact h c (List.mem_reverse.mp hc)),
    List.reverse_reverse]

theorem sanitizeChars_eq_self_of_all {l : List Char}
    (h : ∀ c ∈ l, allowedChar c = true) : sanitizeChars l = l := by
  induction l with
  | nil => rfl
  | cons a as ih =>
    simp only [sanitizeChars, h a (List.mem_cons_self a as), if_true,
      List.singleton_append, List.cons.injEq, true_and]
    exact ih fun c hc => h c (List.mem_cons_of_mem a hc)

/-- C9: The default sanitize function is idempotent: for every string `x`,
`defaultSanitizeFilename (defaultSanitizeFilename x) = defaultSanitizeFilename x`
(sanitizing an already-sanitized name is a no-op). -/
theorem defaultSanitizeFilename_idempotent (x : String) :
    defaultSanitizeFilename (defaultSanitizeFilename x) =
      defaultSanitizeFilename x := by
  show String.mk (sanitizeChars (trimBy jsWhitespace
      (sanitizeChars (trimBy jsWhitespace x.data)))) = _
  rw [trimBy_eq_self_of_all
      (fun c hc => allowedChar_not_jsWhitespace (mem_sanitizeChars hc)),
    sanitizeChars_eq_self_of_all (fun c hc => mem_sanitizeChars hc)]
  rfl

/-! Validation of the embedding against the repository's own test vectors
(`src/lib/utils.test.ts` and `src/lib/defaults.test.ts`). -/

theorem trimPath_test_vectors :
    trimPath "/test/123/abc/" = "test/123/abc" ∧
    trimPath "   /test/123/abc/ " = "test/123/abc" ∧
    trimPath "/// /  /test/123/abc/ / /// ///" = "test/123/abc" ∧
    trimPath "test/123/abc//" = "test/123/abc" ∧
    trimPath "//test/123/abc " = "test/123/abc" ∧
    trimPath " / " = "" := by decide

theorem defaultSanitizeFilename_test_vectors :
    defaultSanitizeFilename "foo_123.txt" = "foo_123.txt" ∧
    defaultSanitizeFilename " foo_123.txt  " = "foo_123.txt" ∧
    defaultSanitizeFilename "foo_1   2-3.txt" = "foo_1______2-3.txt" := by decide

/-! ## Decimal rendering (JS number-to-string for naturals) -/

/-- The decimal digit character for `d < 10`. -/
def digitChar (d : Nat) : Char := Char.ofNat (48 + d)

/-- Decimal digits of `n`, most significant first; `fuel` bounds the
recursion (any `fuel > n` is enough). -/
def natToCharsCore (fuel n : Nat) : List Char :=
  match fuel with
  | 0 => []
  | fuel + 1 =>
    if n < 10 then [digitChar n]
    else natToCharsCore fuel (n / 10) ++ [digitChar (n % 10)]

/-- `` `${n}` `` for a natural number `n`. -/
def natToChars (n : Nat) : List Char := natToCharsCore (n + 1) n

/-- `String.prototype.padStart(w, '0')` on a character list. -/
def padStart (w : Nat) (l : List Char) : List Char :=
  List.replicate (w - l.length) '0' ++ l

/-- Decimal parsing, used only to prove the rendering injective. -/
def parseAcc (acc : Nat) (l : List Char) : Nat :=
  l.foldl (fun a c => a * 10 + (c.toNat - 48)) acc

theorem digitChar_toNat {d : Nat} (h : d < 10) : (digitChar d).toNat = 48 + d := by
  interval_cases d <;> decide

theorem parseAcc_natToCharsCore (fuel : Nat) : ∀ n, n < fuel → ∀ acc,
    parseAcc acc (natToCharsCore fuel n) =
      acc * 10 ^ (natToCharsCore fuel n).length + n := by
  induction fuel with
  | zero => intro n hn; omega
  | succ fuel ih =>
    intro n hn acc
    by_cases h10 : n < 10
    · simp only [natToCharsCore, h10, if_true, parseAcc, List.foldl_cons,
        List.foldl_nil, List.length_singleton, pow_one, digitChar_toNat h10]
      omega
    · have hdiv : n / 10 < fuel := by omega
      simp only [natToCharsCore, h10, if_false, parseAcc, List.foldl_append,
        List.foldl_cons, List.foldl_nil, List.length_append,
        List.length_singleton]
      have hmod : (digitChar (n % 10)).toNat = 48 + n % 10 :=
        digitChar_toNat (Nat.mod_lt n (by omega))
      rw [hmod]
      have := ih (n / 10) hdiv acc
      simp only [parseAcc] at this
      rw [this, pow_succ]
      have hdm := Nat.div_add_mod n 10
      rw [Nat.add_mul, ← Nat.mul_assoc]
      omega

theorem parseAcc_replicate_zero (k : Nat) :
    parseAcc 0 (List.replicate k '0') = 0 := by
  induction k with
  | zero => rfl
  | succ k ih => simpa [List.replicate_succ, parseAcc, List.foldl_cons] using ih

theorem parseAcc_padStart_natToChars (w n : Nat) :
    parseAcc 0 (padStart w (natToChars n)) = n := by
  have hcore := parseAcc_natToCharsCore (n + 1) n (by omega) 0
  simp only [padStart, parseAcc, List.foldl_append]
  have hz := parseAcc_replicate_zero (w - (natToChars n).length)
  simp only [parseAcc] at hz
  rw [hz]
  simpa [natToChars, parseAcc] using hcore

theorem padStart_natToChars_injective {w n₁ n₂ : Nat}
    (h : padStart w (natToChars n₁) = padStart w (natToChars n₂)) : n₁ = n₂ := by
  have := congrArg (parseAcc 0) h
  rwa [parseAcc_padStart_natToChars, parseAcc_padStart_natToChars] at this

/-! ## Default path generation

The repository's current `src/lib/defaults.ts` is not among the source
files; only its unit tests (`src/lib/defaults.test.ts`) and the README
documentation are, together with a superseded wall-clock-only revision.
The definitions below are therefore modelled from the spec. -/

/-- A UTC wall-clock reading: the `Date` fields used by the generator.
`month` is 1-based, i.e. it stands for `getUTCMonth() + 1`. -/
structure Instant where
  year : Nat
  month : Nat
  day : Nat
  hour : Nat
  minute : Nat
  second : Nat
deriving DecidableEq

/-- Modelled from the spec: the current `defaultGeneratePathForInstant` is
missing from the sources (only `src/lib/defaults.test.ts` exercises it).
Per spec §4.1 it renders `YYYY/MM/DD/HHmmss-<monotonic-subsecond-ticks>-<name>`
from the UTC fields of `instant` (each zero-padded) and a `process.hrtime()`
pair `[seconds, nanoseconds]`, the nanoseconds zero-padded to nine digits;
the format is validated below against the repository's own test vectors. -/
def defaultGeneratePathForInstant (instant : Instant) (_hrSeconds hrNanos : Nat)
    (sanitizedUploadedAs : String) : String :=
  String.mk
    ((padStart 4 (natToChars instant.year) ++ ['/'] ++
      padStart 2 (natToChars instant.month) ++ ['/'] ++
      padStart 2 (natToChars instant.day) ++ ['/'] ++
      padStart 2 (natToChars instant.hour) ++
      padStart 2 (natToChars instant.minute) ++
      padStart 2 (natToChars instant.second) ++ ['-']) ++
     (padStart 9 (natToChars hrNanos) ++ ('-' :: sanitizedUploadedAs.data)))

/-- A reading of the process clocks at one call: the wall clock and the
monotonic `process.hrtime()` counter. -/
structure ProcClock where
  now : Instant
  hrSeconds : Nat
  hrNanos : Nat

/-- Modelled from the spec: `defaultGeneratePath` reads the current instant
and `process.hrtime()` and delegates to `defaultGeneratePathForInstant`. -/
def defaultGeneratePath (clk : ProcClock) (sanitizedUploadedAs : String) : String :=
  defaultGeneratePathForInstant clk.now clk.hrSeconds clk.hrNanos
    sanitizedUploadedAs

theorem defaultGeneratePathForInstant_test_vectors :
    defaultGeneratePathForInstant ⟨2019, 4, 4, 23, 52, 26⟩ 0 473000000
      "test.png" = "2019/04/04/235226-473000000-test.png" ∧
    defaultGeneratePathForInstant ⟨1992, 12, 4, 5, 2, 0⟩ 0 0
      "test.png" = "1992/12/04/050200-000000000-test.png" := by decide

/-- C4: two calls of the default `generatePath` in the same process tick
(same wall-clock instant, same `hrtime` seconds) with the same sanitized
input never produce identical outputs, because the generated path embeds the
strictly increasing `process.hrtime()` nanosecond counter. -/
theorem defaultGeneratePath_same_tick_distinct (c₁ c₂ : ProcClock)
    (sanitizedUploadedAs : String) (hnow : c₁.now = c₂.now)
    (hsec : c₁.hrSeconds = c₂.hrSeconds) (hmono : c₁.hrNanos < c₂.hrNanos) :
    defaultGeneratePath c₁ sanitizedUploadedAs ≠
      defaultGeneratePath c₂ sanitizedUploadedAs := by
  intro h
  unfold defaultGeneratePath defaultGeneratePathForInstant at h
  rw [hnow] at h
  have hdata := congrArg String.data h
  simp only [String.data] at hdata
  have h₁ := List.append_cancel_left hdata
  have h₂ := List.append_cancel_right h₁
  exact absurd (padStart_natToChars_injective h₂) (by omega)

/-- Witness for C4 at the repository's own test instant. -/
theorem defaultGeneratePath_same_tick_distinct_witness :
    defaultGeneratePath ⟨⟨2019, 4, 4, 23, 52, 26⟩, 0, 473000000⟩ "test.png" ≠
      defaultGeneratePath ⟨⟨2019, 4, 4, 23, 52, 26⟩, 0, 473000001⟩ "test.png" :=
  defaultGeneratePath_same_tick_distinct _ _ _ rfl rfl (by decide)

/-! ## Storage path composition (`Uploads.generateStoragePath`) -/

/-- `src/lib/Uploads.ts` `generateStoragePath`:
`` return `/${trimPath(`${this.config.pathPrefix || ''}/`)}${trimPath(path)}`; ``
where `path` is the result of `generatePath`. Note that the template
concatenates the two trimmed segments directly: the only `'/'` of the
template is the leading one, and the `'/'` appended to the prefix is
removed again by `trimPath`. -/
def generateStoragePath (pathPrefix generatedPath : String) : String :=
  "/" ++ trimPath (pathPrefix ++ "/") ++ trimPath generatedPath

/-- C1 (code bug): with the configured prefix `"uploads"` (or any of its
slash variants) and a freshly generated segment, `generateStoragePath`
trims both sides of the prefix and of the segment and adds the single
leading separator, but joins the prefix and the segment with NO separator:
the result is `"/uploads2019/..."`, whose first nine characters are
`"/uploads2"`, not `"/uploads/"` — the repository's own `pathPrefix` tests
(`Uploads.test.ts`) instead require a match of `^/uploads/[^/]`. -/
theorem generateStoragePath_missing_separator :
    generateStoragePath "uploads" "2019/04/04/235226-473000000-foo.txt" =
      "/uploads2019/04/04/235226-473000000-foo.txt" ∧
    generateStoragePath "/uploads" "2019/04/04/235226-473000000-foo.txt" =
      "/uploads2019/04/04/235226-473000000-foo.txt" ∧
    generateStoragePath "uploads/" "2019/04/04/235226-473000000-foo.txt" =
      "/uploads2019/04/04/235226-473000000-foo.txt" ∧
    generateStoragePath "/uploads/" "2019/04/04/235226-473000000-foo.txt" =
      "/uploads2019/04/04/235226-473000000-foo.txt" ∧
    (generateStoragePath "uploads" "2019/04/04/235226-473000000-foo.txt").take 9
      = "/uploads2" ∧
    (generateStoragePath "uploads" "2019/04/04/235226-473000000-foo.txt").take 9
      ≠ "/uploads/" := by decide

/-! ## The orchestration engine (`src/lib/Uploads.ts`)

The `Uploads` service is a strict sequence of awaited calls against two
external collaborators: the disks (via `DiskManager`) and the repository.
We model

* the disks' contents and the repository's records as explicit state
  (`SysState`), with byte sequences abstracted to numeric content ids and
  the repository's opaque `Upload` values abstracted to numeric ids;
* the success or failure of each fallible disk call through an `Oracle`
  (a failing call raises, i.e. the operation returns `Except.error` at
  that point, exactly as a rejected `await` does);
* every externally visible effect an operation performs, in order, as a
  `List Action` (read-only fetches are logged too; a call that fails
  performs no effect).

`sanitizeFilename` and `generatePath` are pure string hooks; operations
take the relevant `generatePath` output for the call as the `gen`
argument (its default implementation is modelled above). Upload metadata
is passed through to the repository unchanged and plays no role in any
claim, so it is omitted from the repository record. -/

/-- `UploadedFile` (`src/types.ts`): where one stored byte sequence lives. -/
structure UploadedFile where
  disk : String
  path : String
  uploadedAs : String
deriving DecidableEq

/-- The errors an operation can raise: the library's own
`PathNotUniqueError` plus the propagated failures of external calls. -/
inductive UErr where
  | pathNotUnique (disk oldPath newPath operation : String)
  | diskWriteErr (disk path : String)
  | diskReadErr (disk path : String)
  | diskDeleteErr (disk path : String)
  | repoNotFound (id : Nat)
deriving DecidableEq

/-- Externally visible effects, in the order they are performed. -/
inductive Action where
  | repoGetInfo (id : Nat)
  | repoCreate (file : UploadedFile)
  | repoUpdate (id : Nat) (file : UploadedFile)
  | repoDelete (id : Nat)
  | diskWrite (disk path : String) (content : Nat)
  | diskRead (disk path : String)
  | diskDelete (disk path : String)
deriving DecidableEq

/-- The two external stores: disk files keyed by (disk name, path), and
repository records keyed by upload id. -/
structure SysState where
  files : String × String → Option Nat
  repo : Nat → Option UploadedFile

/-- The service configuration (`UploadsConfig`): `pathPrefix` and
`defaultDisk` with `""` standing for an absent (falsy) option, and
`canonical` standing for each disk's `getName()` (with `""` for a falsy
name). -/
structure Svc where
  pathPrefix : String
  defaultDisk : String
  canonical : String → String

/-- Success or failure of each fallible disk call. -/
structure Oracle where
  writeOk : String → String → Bool
  readOk : String → String → Bool
  deleteOk : String → String → Bool

/-- `getDefaultDiskName`: `this.config.defaultDisk || 'default'`. -/
def getDefaultDiskName (svc : Svc) : String :=
  if svc.defaultDisk = "" then "default" else svc.defaultDisk

/-- `disk.getName() || diskName`: the name recorded for (and the storage
key of) the disk looked up under `key`. -/
def resolvedDiskName (svc : Svc) (key : String) : String :=
  if svc.canonical key = "" then key else svc.canonical key

/-- Overwrite the file at `(d, p)` with content `c` (a disk `write`). -/
def setFile (st : SysState) (d p : String) (c : Nat) : SysState :=
  { st with files := fun k => if k = (d, p) then some c else st.files k }

/-- Remove the file at `(d, p)` (a disk `delete`). -/
def removeFile (st : SysState) (d p : String) : SysState :=
  { st with files := fun k => if k = (d, p) then none else st.files k }

/-- `repository.update`: repoint record `id` at `f`. -/
def setRecord (st : SysState) (id : Nat) (f : UploadedFile) : SysState :=
  { st with repo := fun i => if i = id then some f else st.repo i }

/-- `repository.delete`: drop record `id`. -/
def removeRecord (st : SysState) (id : Nat) : SysState :=
  { st with repo := fun i => if i = id then none else st.repo i }

/-- `Uploads.place(fileData, uploadedAs, diskName?)`: write the content to
the generated storage path on the requested (or default) disk and return
the `UploadedFile` record; the repository is not touched. `sanitized` and
`gen` are this call's `sanitizeFilename` and `generatePath` outputs. -/
def place (svc : Svc) (o : Oracle) (st : SysState) (content : Nat)
    (sanitized gen : String) (diskNameArg : Option String) :
    Except UErr UploadedFile × SysState × List Action :=
  let dn := diskNameArg.getD (getDefaultDiskName svc)
  let path := generateStoragePath svc.pathPrefix gen
  let d := resolvedDiskName svc dn
  if o.writeOk d path then
    (Except.ok ⟨d, path, sanitized⟩, setFile st d path content,
      [Action.diskWrite d path content])
  else
    (Except.error (UErr.diskWriteErr d path), st, [])

/-- The `newFile` local of `Uploads.copy`: the original record with the
resolved destination disk and the (re)generated or kept path. -/
def copyNewFile (svc : Svc) (originalFile : UploadedFile)
    (newDiskNameArg : Option String) (regeneratePath : Bool) (gen : String) :
    UploadedFile :=
  { originalFile with
      disk := resolvedDiskName svc (newDiskNameArg.getD (getDefaultDiskName svc))
      path := if regeneratePath then generateStoragePath svc.pathPrefix gen
              else originalFile.path }

/-- `Uploads.copy(originalFile, newDiskName?, regeneratePath = true)`:
compute the destination; throw `PathNotUniqueError` if it coincides with
the source (before any byte is touched); otherwise stream the source into
the destination and return the new record. -/
def copy (svc : Svc) (o : Oracle) (st : SysState) (originalFile : UploadedFile)
    (newDiskNameArg : Option String) (regeneratePath : Bool) (gen : String) :
    Except UErr UploadedFile × SysState × List Action :=
  let newFile := copyNewFile svc originalFile newDiskNameArg regeneratePath gen
  let od := resolvedDiskName svc originalFile.disk
  if originalFile.disk = newFile.disk ∧ originalFile.path = newFile.path then
    (Except.error (UErr.pathNotUnique originalFile.disk originalFile.path
        newFile.path "copy"), st, [])
  else
    match o.readOk od originalFile.path, st.files (od, originalFile.path) with
    | true, some content =>
      if o.writeOk newFile.disk newFile.path then
        (Except.ok newFile, setFile st newFile.disk newFile.path content,
          [Action.diskRead od originalFile.path,
           Action.diskWrite newFile.disk newFile.path content])
      else
        (Except.error (UErr.diskWriteErr newFile.disk newFile.path), st,
          [Action.diskRead od originalFile.path])
    | _, _ => (Except.error (UErr.diskReadErr od originalFile.path), st, [])

/-- `Uploads.update(upload, fileData, uploadedAs, meta?, diskName?)`:
fetch the old record, place the new bytes, delete the old file, then
repoint the repository record. A failure at any `await` propagates and
stops the sequence there. -/
def update (svc : Svc) (o : Oracle) (st : SysState) (id : Nat) (content : Nat)
    (sanitized gen : String) (diskNameArg : Option String) :
    Except UErr Nat × SysState × List Action :=
  match st.repo id with
  | none => (Except.error (UErr.repoNotFound id), st, [])
  | some oldFile =>
    let od := resolvedDiskName svc oldFile.disk
    match place svc o st content sanitized gen diskNameArg with
    | (Except.error e, st₁, tr₁) =>
      (Except.error e, st₁, Action.repoGetInfo id :: tr₁)
    | (Except.ok newFile, st₁, tr₁) =>
      if o.deleteOk od oldFile.path then
        (Except.ok id, setRecord (removeFile st₁ od oldFile.path) id newFile,
          Action.repoGetInfo id :: tr₁ ++
            [Action.diskDelete od oldFile.path, Action.repoUpdate id newFile])
      else
        (Except.error (UErr.diskDeleteErr od oldFile.path), st₁,
          Action.repoGetInfo id :: tr₁)

/-- `Uploads.transfer(upload, newDiskName?, newMeta?, regeneratePath = false)`:
fetch the old record and `copy`; a `PathNotUniqueError` from the copy is
converted into the sentinel `false` (`Except.ok none` here), every other
error is rethrown; on success the repository record is repointed. -/
def transfer (svc : Svc) (o : Oracle) (st : SysState) (id : Nat)
    (newDiskNameArg : Option String) (regeneratePath : Bool) (gen : String) :
    Except UErr (Option Nat) × SysState × List Action :=
  match st.repo id with
  | none => (Except.error (UErr.repoNotFound id), st, [])
  | some oldFile =>
    match copy svc o st oldFile newDiskNameArg regeneratePath gen with
    | (Except.error (UErr.pathNotUnique _ _ _ _), st₁, tr₁) =>
      (Except.ok none, st₁, Action.repoGetInfo id :: tr₁)
    | (Except.error e, st₁, tr₁) =>
      (Except.error e, st₁, Action.repoGetInfo id :: tr₁)
    | (Except.ok newFile, st₁, tr₁) =>
      (Except.ok (some id), setRecord st₁ id newFile,
        Action.repoGetInfo id :: tr₁ ++ [Action.repoUpdate id newFile])

/-- `Uploads.delete(upload, onlyFile = false)`: fetch the record, delete it
from the repository unless `onlyFile`, then delete the file on the disk. -/
def delete (svc : Svc) (o : Oracle) (st : SysState) (id : Nat)
    (onlyFile : Bool) : Except UErr Unit × SysState × List Action :=
  match st.repo id with
  | none => (Except.error (UErr.repoNotFound id), st, [])
  | some file =>
    let d := resolvedDiskName svc file.disk
    let (st₁, tr₁) :=
      if onlyFile then (st, ([] : List Action))
      else (removeRecord st id, [Action.repoDelete id])
    if o.deleteOk d file.path then
      (Except.ok (), removeFile st₁ d file.path,
        Action.repoGetInfo id :: tr₁ ++ [Action.diskDelete d file.path])
    else
      (Except.error (UErr.diskDeleteErr d file.path), st₁,
        Action.repoGetInfo id :: tr₁)

/-! ### Branch lemmas for `copy` -/

theorem copy_collision_eq {svc : Svc} {o : Oracle} {st : SysState}
    {originalFile : UploadedFile} {nda : Option String} {rg : Bool} {gen : String}
    (hcol : originalFile.disk = (copyNewFile svc originalFile nda rg gen).disk ∧
      originalFile.path = (copyNewFile svc originalFile nda rg gen).path) :
    copy svc o st originalFile nda rg gen =
      (Except.error (UErr.pathNotUnique originalFile.disk originalFile.path
        (copyNewFile svc originalFile nda rg gen).path "copy"), st, []) := by
  simp only [copy]
  rw [if_pos hcol]

theorem copy_ok_eq {svc : Svc} {o : Oracle} {st : SysState}
    {originalFile : UploadedFile} {nda : Option String} {rg : Bool} {gen : String}
    {content : Nat}
    (hcol : ¬(originalFile.disk = (copyNewFile svc originalFile nda rg gen).disk ∧
      originalFile.path = (copyNewFile svc originalFile nda rg gen).path))
    (hr : o.readOk (resolvedDiskName svc originalFile.disk) originalFile.path = true)
    (hf : st.files (resolvedDiskName svc originalFile.disk, originalFile.path) =
      some content)
    (hw : o.writeOk (copyNewFile svc originalFile nda rg gen).disk
      (copyNewFile svc originalFile nda rg gen).path = true) :
    copy svc o st originalFile nda rg gen =
      (Except.ok (copyNewFile svc originalFile nda rg gen),
       setFile st (copyNewFile svc originalFile nda rg gen).disk
         (copyNewFile svc originalFile nda rg gen).path content,
       [Action.diskRead (resolvedDiskName svc originalFile.disk) originalFile.path,
        Action.diskWrite (copyNewFile svc originalFile nda rg gen).disk
          (copyNewFile svc originalFile nda rg gen).path content]) := by
  simp only [copy]
  rw [if_neg hcol, hr, hf, hw]
  rfl

/-- Whatever happens, `copy` never touches the repository, never performs a
repository update and never deletes a disk file. -/
theorem copy_frame (svc : Svc) (o : Oracle) (st : SysState)
    (originalFile : UploadedFile) (nda : Option String) (rg : Bool) (gen : String) :
    (copy svc o st originalFile nda rg gen).2.1.repo = st.repo ∧
    (∀ i f, Action.repoUpdate i f ∉ (copy svc o st originalFile nda rg gen).2.2) ∧
    (∀ d p, Action.diskDelete d p ∉ (copy svc o st originalFile nda rg gen).2.2) := by
  simp only [copy]
  split
  · exact ⟨rfl, by simp, by simp⟩
  · rcases hr : o.readOk (resolvedDiskName svc originalFile.disk) originalFile.path
      with _ | _ <;>
      rcases hf : st.files (resolvedDiskName svc originalFile.disk,
        originalFile.path) with _ | content <;>
      simp [setFile] <;>
      split <;> simp [setFile]

/-- C5: `copy` throws the dedicated collision error exactly when the
resolved destination disk equals the source record's disk AND the
destination path equals the source path; on a collision it throws before
any bytes are written (state and effect trace untouched); otherwise, with
the source readable, it stream-copies the bytes to the destination and
returns the new location. -/
theorem copy_collision_exactly (svc : Svc) (o : Oracle) (st : SysState)
    (originalFile : UploadedFile) (nda : Option String) (rg : Bool)
    (gen : String) :
    ((copy svc o st originalFile nda rg gen).1 =
        Except.error (UErr.pathNotUnique originalFile.disk originalFile.path
          (copyNewFile svc originalFile nda rg gen).path "copy") ↔
      originalFile.disk = (copyNewFile svc originalFile nda rg gen).disk ∧
        originalFile.path = (copyNewFile svc originalFile nda rg gen).path) ∧
    (originalFile.disk = (copyNewFile svc originalFile nda rg gen).disk ∧
        originalFile.path = (copyNewFile svc originalFile nda rg gen).path →
      copy svc o st originalFile nda rg gen =
        (Except.error (UErr.pathNotUnique originalFile.disk originalFile.path
          (copyNewFile svc originalFile nda rg gen).path "copy"), st, [])) ∧
    (∀ content : Nat,
      ¬(originalFile.disk = (copyNewFile svc originalFile nda rg gen).disk ∧
          originalFile.path = (copyNewFile svc originalFile nda rg gen).path) →
      o.readOk (resolvedDiskName svc originalFile.disk) originalFile.path = true →
      st.files (resolvedDiskName svc originalFile.disk, originalFile.path) =
        some content →
      o.writeOk (copyNewFile svc originalFile nda rg gen).disk
        (copyNewFile svc originalFile nda rg gen).path = true →
      copy svc o st originalFile nda rg gen =
        (Except.ok (copyNewFile svc originalFile nda rg gen),
         setFile st (copyNewFile svc originalFile nda rg gen).disk
           (copyNewFile svc originalFile nda rg gen).path content,
         [Action.diskRead (resolvedDiskName svc originalFile.disk)
            originalFile.path,
          Action.diskWrite (copyNewFile svc originalFile nda rg gen).disk
            (copyNewFile svc originalFile nda rg gen).path content])) := by
  refine ⟨⟨?_, ?_⟩, ?_, ?_⟩
  · intro h
    by_contra hcol
    simp only [copy] at h
    rw [if_neg hcol] at h
    cases hr : o.readOk (resolvedDiskName svc originalFile.disk)
        originalFile.path <;>
      cases hf : st.files (resolvedDiskName svc originalFile.disk,
        originalFile.path) <;>
      rw [hr, hf] at h <;> simp at h <;> split at h <;> simp at h
  · intro hcol
    rw [copy_collision_eq hcol]
  · intro hcol
    rw [copy_collision_eq hcol]
  · intro content hcol hr hf hw
    exact copy_ok_eq hcol hr hf hw

/-! Concrete fixtures used by the witnesses below. -/

/-- A minimal configuration: no path prefix, default disk name, disks
whose `getName()` is falsy (so the lookup key is recorded). -/
def svcW : Svc := { pathPrefix := "", defaultDisk := "", canonical := fun _ => "" }

/-- An all-successful oracle. -/
def oW : Oracle :=
  { writeOk := fun _ _ => true, readOk := fun _ _ => true,
    deleteOk := fun _ _ => true }

/-- A stored upload record. -/
def fileW : UploadedFile := ⟨"default", "/a.txt", "a.txt"⟩

/-- One upload (id 1) present both on disk and in the repository. -/
def stW : SysState :=
  { files := fun k => if k = ("default", "/a.txt") then some 5 else none,
    repo := fun i => if i = 1 then some fileW else none }

/-- Witness for C5: a same-disk same-path copy collides and leaves the
state untouched; a copy to another disk succeeds and copies the bytes. -/
theorem copy_collision_exactly_witness :
    copy svcW oW stW fileW none false "g.txt" =
      (Except.error (UErr.pathNotUnique "default" "/a.txt" "/a.txt" "copy"),
        stW, []) ∧
    copy svcW oW stW fileW (some "d2") false "g.txt" =
      (Except.ok ⟨"d2", "/a.txt", "a.txt"⟩, setFile stW "d2" "/a.txt" 5,
       [Action.diskRead "default" "/a.txt", Action.diskWrite "d2" "/a.txt" 5]) :=
  ⟨(copy_collision_exactly svcW oW stW fileW none false "g.txt").2.1
      (by constructor <;> rfl),
   (copy_collision_exactly svcW oW stW fileW (some "d2") false "g.txt").2.2 5
      (by decide) rfl rfl rfl⟩

/-- C6: `transfer` returns the sentinel `false` exactly when the copy step
raised the collision error, and in that case the repository is left
unchanged (no `repository.update` is performed); every other error raised
by the copy step propagates unchanged to the caller. -/
theorem transfer_collision_sentinel (svc : Svc) (o : Oracle) (st : SysState)
    (id : Nat) (oldFile : UploadedFile) (nda : Option String) (rg : Bool)
    (gen : String) (hrepo : st.repo id = some oldFile) :
    ((transfer svc o st id nda rg gen).1 = Except.ok none ↔
      ∃ d p q op, (copy svc o st oldFile nda rg gen).1 =
        Except.error (UErr.pathNotUnique d p q op)) ∧
    ((∃ d p q op, (copy svc o st oldFile nda rg gen).1 =
        Except.error (UErr.pathNotUnique d p q op)) →
      (transfer svc o st id nda rg gen).2.1.repo = st.repo ∧
      ∀ i f, Action.repoUpdate i f ∉ (transfer svc o st id nda rg gen).2.2) ∧
    (∀ e, (copy svc o st oldFile nda rg gen).1 = Except.error e →
      (∀ d p q op, e ≠ UErr.pathNotUnique d p q op) →
      (transfer svc o st id nda rg gen).1 = Except.error e) := by
  have hframe := copy_frame svc o st oldFile nda rg gen
  rcases hc : copy svc o st oldFile nda rg gen with ⟨r, st₁, tr₁⟩
  rw [hc] at hframe
  rcases r with e | newFile
  · cases e <;> simp only [transfer, hrepo, hc] <;>
      refine ⟨?_, ?_, ?_⟩ <;>
      simp_all <;>
      intro i f <;> simp_all
  · simp only [transfer, hrepo, hc]
    refine ⟨by simp, ?_, by simp⟩
    rintro ⟨d, p, q, op, hpnu⟩
    simp at hpnu

/-- Witness for C6: transferring an upload onto its own disk and path
(no regeneration) yields the sentinel `false` and leaves the repository
record untouched. -/
theorem transfer_collision_sentinel_witness :
    (transfer svcW oW stW 1 none false "g.txt").1 = Except.ok none ∧
    (transfer svcW oW stW 1 none false "g.txt").2.1.repo = stW.repo :=
  ⟨(transfer_collision_sentinel svcW oW stW 1 fileW none false "g.txt" rfl).1.mpr
      ⟨"default", "/a.txt", "/a.txt", "copy", rfl⟩,
   ((transfer_collision_sentinel svcW oW stW 1 fileW none false "g.txt" rfl).2.1
      ⟨"default", "/a.txt", "/a.txt", "copy", rfl⟩).1⟩

/-! ### Branch lemmas for `place` -/

theorem place_ok_eq {svc : Svc} {o : Oracle} {st : SysState} {content : Nat}
    {sanitized gen : String} {dna : Option String}
    (hw : o.writeOk (resolvedDiskName svc (dna.getD (getDefaultDiskName svc)))
      (generateStoragePath svc.pathPrefix gen) = true) :
    place svc o st content sanitized gen dna =
      (Except.ok ⟨resolvedDiskName svc (dna.getD (getDefaultDiskName svc)),
         generateStoragePath svc.pathPrefix gen, sanitized⟩,
       setFile st (resolvedDiskName svc (dna.getD (getDefaultDiskName svc)))
         (generateStoragePath svc.pathPrefix gen) content,
       [Action.diskWrite (resolvedDiskName svc (dna.getD (getDefaultDiskName svc)))
          (generateStoragePath svc.pathPrefix gen) content]) := by
  simp only [place]
  rw [hw]
  rfl

theorem place_fail_eq {svc : Svc} {o : Oracle} {st : SysState} {content : Nat}
    {sanitized gen : String} {dna : Option String}
    (hw : o.writeOk (resolvedDiskName svc (dna.getD (getDefaultDiskName svc)))
      (generateStoragePath svc.pathPrefix gen) = false) :
    place svc o st content sanitized gen dna =
      (Except.error (UErr.diskWriteErr
         (resolvedDiskName svc (dna.getD (getDefaultDiskName svc)))
         (generateStoragePath svc.pathPrefix gen)), st, []) := by
  simp only [place]
  rw [hw]
  rfl

/-- C7: in `update` the new file is always written before the old file is
deleted: on the all-success path the effect trace is fetch, write-new,
delete-old, repoint — the write strictly precedes the delete — and if the
write of the new bytes fails, the operation stops with the write error and
the state is exactly the initial one: the old file has not been deleted and
the repository still points at the original artifact. -/
theorem update_writes_new_before_deleting_old (svc : Svc) (o : Oracle)
    (st : SysState) (id : Nat) (oldFile : UploadedFile) (content : Nat)
    (sanitized gen : String) (dna : Option String)
    (hrepo : st.repo id = some oldFile) :
    (o.writeOk (resolvedDiskName svc (dna.getD (getDefaultDiskName svc)))
        (generateStoragePath svc.pathPrefix gen) = true →
      o.deleteOk (resolvedDiskName svc oldFile.disk) oldFile.path = true →
      update svc o st id content sanitized gen dna =
        (Except.ok id,
         setRecord (removeFile
             (setFile st (resolvedDiskName svc (dna.getD (getDefaultDiskName svc)))
               (generateStoragePath svc.pathPrefix gen) content)
             (resolvedDiskName svc oldFile.disk) oldFile.path) id
           ⟨resolvedDiskName svc (dna.getD (getDefaultDiskName svc)),
            generateStoragePath svc.pathPrefix gen, sanitized⟩,
         [Action.repoGetInfo id,
          Action.diskWrite (resolvedDiskName svc (dna.getD (getDefaultDiskName svc)))
            (generateStoragePath svc.pathPrefix gen) content,
          Action.diskDelete (resolvedDiskName svc oldFile.disk) oldFile.path,
          Action.repoUpdate id
            ⟨resolvedDiskName svc (dna.getD (getDefaultDiskName svc)),
             generateStoragePath svc.pathPrefix gen, sanitized⟩])) ∧
    (o.writeOk (resolvedDiskName svc (dna.getD (getDefaultDiskName svc)))
        (generateStoragePath svc.pathPrefix gen) = false →
      update svc o st id content sanitized gen dna =
        (Except.error (UErr.diskWriteErr
           (resolvedDiskName svc (dna.getD (getDefaultDiskName svc)))
           (generateStoragePath svc.pathPrefix gen)), st,
         [Action.repoGetInfo id])) := by
  constructor
  · intro hw hdel
    simp only [update, hrepo]
    rw [place_ok_eq hw]
    simp only [hdel, if_true]
    rfl
  · intro hw
    simp only [update, hrepo]
    rw [place_fail_eq hw]

/-- An oracle whose disk writes fail. -/
def oWriteFailW : Oracle :=
  { writeOk := fun _ _ => false, readOk := fun _ _ => true,
    deleteOk := fun _ _ => true }

/-- Witness for C7: a successful update writes `/b.txt` before deleting
`/a.txt`; with a failing disk write the state is returned untouched. -/
theorem update_writes_new_before_deleting_old_witness :
    update svcW oW stW 1 7 "b.txt" "b.txt" none =
      (Except.ok 1,
       setRecord (removeFile (setFile stW "default" "/b.txt" 7) "default" "/a.txt")
         1 ⟨"default", "/b.txt", "b.txt"⟩,
       [Action.repoGetInfo 1, Action.diskWrite "default" "/b.txt" 7,
        Action.diskDelete "default" "/a.txt",
        Action.repoUpdate 1 ⟨"default", "/b.txt", "b.txt"⟩]) ∧
    update svcW oWriteFailW stW 1 7 "b.txt" "b.txt" none =
      (Except.error (UErr.diskWriteErr "default" "/b.txt"), stW,
       [Action.repoGetInfo 1]) :=
  ⟨(update_writes_new_before_deleting_old svcW oW stW 1 fileW 7 "b.txt" "b.txt"
      none rfl).1 rfl rfl,
   (update_writes_new_before_deleting_old svcW oWriteFailW stW 1 fileW 7 "b.txt"
      "b.txt" none rfl).2 rfl⟩

/-- An oracle whose disk deletes fail. -/
def oDeleteFailW : Oracle :=
  { writeOk := fun _ _ => true, readOk := fun _ _ => true,
    deleteOk := fun _ _ => false }

/-- Counterexample to C3 as stated: with the new file successfully placed
and the delete of the old file failing, `update` does NOT proceed to call
`repository.update` — the delete error propagates (there is no try/catch
around `oldDisk.delete` in the source), the repository still holds the old
pointer, and the effect trace contains no repository update. -/
theorem update_deleteFail_counterexample :
    (update svcW oDeleteFailW stW 1 7 "b.txt" "b.txt" none).1 =
      Except.error (UErr.diskDeleteErr "default" "/a.txt") ∧
    (update svcW oDeleteFailW stW 1 7 "b.txt" "b.txt" none).2.1.repo 1 =
      some fileW ∧
    (update svcW oDeleteFailW stW 1 7 "b.txt" "b.txt" none).2.2 =
      [Action.repoGetInfo 1, Action.diskWrite "default" "/b.txt" 7] :=
  ⟨rfl, rfl, rfl⟩

/-- C3 (amended): if the delete-old step of `update` fails after the new
file was successfully placed, the delete error propagates and
`repository.update` is not called: the repository keeps the old pointer
and the already-written new bytes become the orphan. -/
theorem update_deleteFail_amended (svc : Svc) (o : Oracle) (st : SysState)
    (id : Nat) (oldFile : UploadedFile) (content : Nat) (sanitized gen : String)
    (dna : Option String) (hrepo : st.repo id = some oldFile)
    (hw : o.writeOk (resolvedDiskName svc (dna.getD (getDefaultDiskName svc)))
      (generateStoragePath svc.pathPrefix gen) = true)
    (hdel : o.deleteOk (resolvedDiskName svc oldFile.disk) oldFile.path = false) :
    update svc o st id content sanitized gen dna =
      (Except.error (UErr.diskDeleteErr (resolvedDiskName svc oldFile.disk)
         oldFile.path),
       setFile st (resolvedDiskName svc (dna.getD (getDefaultDiskName svc)))
         (generateStoragePath svc.pathPrefix gen) content,
       [Action.repoGetInfo id,
        Action.diskWrite (resolvedDiskName svc (dna.getD (getDefaultDiskName svc)))
          (generateStoragePath svc.pathPrefix gen) content]) ∧
    (update svc o st id content sanitized gen dna).2.1.repo = st.repo ∧
    (update svc o st id content sanitized gen dna).2.1.files
      (resolvedDiskName svc (dna.getD (getDefaultDiskName svc)),
       generateStoragePath svc.pathPrefix gen) = some content := by
  have h : update svc o st id content sanitized gen dna =
      (Except.error (UErr.diskDeleteErr (resolvedDiskName svc oldFile.disk)
         oldFile.path),
       setFile st (resolvedDiskName svc (dna.getD (getDefaultDiskName svc)))
         (generateStoragePath svc.pathPrefix gen) content,
       [Action.repoGetInfo id,
        Action.diskWrite (resolvedDiskName svc (dna.getD (getDefaultDiskName svc)))
          (generateStoragePath svc.pathPrefix gen) content]) := by
    simp only [update, hrepo]
    rw [place_ok_eq hw]
    simp only [hdel]
    rfl
  refine ⟨h, ?_, ?_⟩ <;> rw [h] <;> simp [setFile]

/-- Witness for C3's amended statement at the concrete counterexample
input. -/
theorem update_deleteFail_amended_witness :
    update svcW oDeleteFailW stW 1 7 "b.txt" "b.txt" none =
      (Except.error (UErr.diskDeleteErr "default" "/a.txt"),
       setFile stW "default" "/b.txt" 7,
       [Action.repoGetInfo 1, Action.diskWrite "default" "/b.txt" 7]) ∧
    (update svcW oDeleteFailW stW 1 7 "b.txt" "b.txt" none).2.1.repo = stW.repo ∧
    (update svcW oDeleteFailW stW 1 7 "b.txt" "b.txt" none).2.1.files
      ("default", "/b.txt") = some 7 :=
  update_deleteFail_amended svcW oDeleteFailW stW 1 fileW 7 "b.txt" "b.txt"
    none rfl rfl rfl

/-- C8: `delete` fetches the record, deletes the repository record unless
`onlyFile`, then deletes the disk file — repository deletion always
precedes disk-file deletion in the effect trace — and with
`onlyFile = true` the repository is never mutated while the file is still
removed. -/
theorem delete_repo_before_disk (svc : Svc) (o : Oracle) (st : SysState)
    (id : Nat) (f : UploadedFile) (hrepo : st.repo id = some f)
    (hdel : o.deleteOk (resolvedDiskName svc f.disk) f.path = true) :
    delete svc o st id false =
      (Except.ok (),
       removeFile (removeRecord st id) (resolvedDiskName svc f.disk) f.path,
       [Action.repoGetInfo id, Action.repoDelete id,
        Action.diskDelete (resolvedDiskName svc f.disk) f.path]) ∧
    delete svc o st id true =
      (Except.ok (), removeFile st (resolvedDiskName svc f.disk) f.path,
       [Action.repoGetInfo id,
        Action.diskDelete (resolvedDiskName svc f.disk) f.path]) ∧
    (delete svc o st id true).2.1.repo = st.repo ∧
    (delete svc o st id true).2.1.files (resolvedDiskName svc f.disk, f.path) =
      none := by
  have h₀ : delete svc o st id false =
      (Except.ok (),
       removeFile (removeRecord st id) (resolvedDiskName svc f.disk) f.path,
       [Action.repoGetInfo id, Action.repoDelete id,
        Action.diskDelete (resolvedDiskName svc f.disk) f.path]) := by
    simp only [delete, hrepo, hdel]
    rfl
  have h₁ : delete svc o st id true =
      (Except.ok (), removeFile st (resolvedDiskName svc f.disk) f.path,
       [Action.repoGetInfo id,
        Action.diskDelete (resolvedDiskName svc f.disk) f.path]) := by
    simp only [delete, hrepo, hdel]
    rfl
  refine ⟨h₀, h₁, ?_, ?_⟩ <;> rw [h₁] <;> simp [removeFile]

/-- Witness for C8 at the concrete fixture. -/
theorem delete_repo_before_disk_witness :
    delete svcW oW stW 1 false =
      (Except.ok (), removeFile (removeRecord stW 1) "default" "/a.txt",
       [Action.repoGetInfo 1, Action.repoDelete 1,
        Action.diskDelete "default" "/a.txt"]) ∧
    delete svcW oW stW 1 true =
      (Except.ok (), removeFile stW "default" "/a.txt",
       [Action.repoGetInfo 1, Action.diskDelete "default" "/a.txt"]) ∧
    (delete svcW oW stW 1 true).2.1.repo = stW.repo ∧
    (delete svcW oW stW 1 true).2.1.files ("default", "/a.txt") = none :=
  delete_repo_before_disk svcW oW stW 1 fileW rfl rfl

/-- C10: a successful `transfer` never issues a disk delete — its effects
are exactly the fetch, a read of the old location, a write to the new
location and the repository update — and afterwards the original bytes are
still present and readable at the old location. -/
theorem transfer_leaves_source_bytes (svc : Svc) (o : Oracle) (st : SysState)
    (id : Nat) (oldFile : UploadedFile) (nda : Option String) (rg : Bool)
    (gen : String) (content : Nat) (hrepo : st.repo id = some oldFile)
    (hcol : ¬(oldFile.disk = (copyNewFile svc oldFile nda rg gen).disk ∧
      oldFile.path = (copyNewFile svc oldFile nda rg gen).path))
    (hr : o.readOk (resolvedDiskName svc oldFile.disk) oldFile.path = true)
    (hf : st.files (resolvedDiskName svc oldFile.disk, oldFile.path) =
      some content)
    (hw : o.writeOk (copyNewFile svc oldFile nda rg gen).disk
      (copyNewFile svc oldFile nda rg gen).path = true) :
    transfer svc o st id nda rg gen =
      (Except.ok (some id),
       setRecord (setFile st (copyNewFile svc oldFile nda rg gen).disk
         (copyNewFile svc oldFile nda rg gen).path content) id
         (copyNewFile svc oldFile nda rg gen),
       [Action.repoGetInfo id,
        Action.diskRead (resolvedDiskName svc oldFile.disk) oldFile.path,
        Action.diskWrite (copyNewFile svc oldFile nda rg gen).disk
          (copyNewFile svc oldFile nda rg gen).path content,
        Action.repoUpdate id (copyNewFile svc oldFile nda rg gen)]) ∧
    (transfer svc o st id nda rg gen).2.1.files
      (resolvedDiskName svc oldFile.disk, oldFile.path) = some content ∧
    (∀ d p, Action.diskDelete d p ∉ (transfer svc o st id nda rg gen).2.2) := by
  have h : transfer svc o st id nda rg gen =
      (Except.ok (some id),
       setRecord (setFile st (copyNewFile svc oldFile nda rg gen).disk
         (copyNewFile svc oldFile nda rg gen).path content) id
         (copyNewFile svc oldFile nda rg gen),
       [Action.repoGetInfo id,
        Action.diskRead (resolvedDiskName svc oldFile.disk) oldFile.path,
        Action.diskWrite (copyNewFile svc oldFile nda rg gen).disk
          (copyNewFile svc oldFile nda rg gen).path content,
        Action.repoUpdate id (copyNewFile svc oldFile nda rg gen)]) := by
    simp only [transfer, hrepo]
    rw [copy_ok_eq hcol hr hf hw]
    rfl
  refine ⟨h, ?_, ?_⟩ <;> rw [h]
  · simp only [setRecord, setFile]
    split <;> simp [hf]
  · intro d p
    simp

/-- Witness for C10: transferring upload 1 from `default` to `d2` leaves
`/a.txt` intact on `default`. -/
theorem transfer_leaves_source_bytes_witness :
    transfer svcW oW stW 1 (some "d2") false "g.txt" =
      (Except.ok (some 1),
       setRecord (setFile stW "d2" "/a.txt" 5) 1 ⟨"d2", "/a.txt", "a.txt"⟩,
       [Action.repoGetInfo 1, Action.diskRead "default" "/a.txt",
        Action.diskWrite "d2" "/a.txt" 5,
        Action.repoUpdate 1 ⟨"d2", "/a.txt", "a.txt"⟩]) ∧
    (transfer svcW oW stW 1 (some "d2") false "g.txt").2.1.files
      ("default", "/a.txt") = some 5 ∧
    (∀ d p, Action.diskDelete d p ∉
      (transfer svcW oW stW 1 (some "d2") false "g.txt").2.2) :=
  transfer_leaves_source_bytes svcW oW stW 1 fileW (some "d2") false "g.txt" 5
    rfl (by decide) rfl rfl rfl

/-! ## Temporary materialization (`src/lib/utils.ts` `withTempFile` and
`Uploads.withTempFile`)

The local filesystem is a map from paths to content ids; the callback is a
state transformer over it that may fail. `tmpName` stands for the fresh
name handed out by `tmp.file` (which also creates the file). -/

/-- The local filesystem visible to temp-file operations. -/
def LocalFS := String → Option Nat

/-- Errors crossing `Uploads.withTempFile`: a missing repository record, a
failing disk read stream, or whatever the caller's callback threw. -/
inductive TmpErr where
  | notFound
  | readFailed
  | callback (code : Nat)
deriving DecidableEq

/-- `src/lib/utils.ts` `withTempFile(execute, skipCleanup = false, …)`:
`tmp.file` creates the temp file, `execute` runs on its name, and only
then — with no try/finally around the `await execute(name)` — the cleanup
callback deletes it unless `skipCleanup`; the name is returned. A
rejection of `execute` propagates at the `await`, skipping the cleanup. -/
def withTempFile {ε : Type} (execute : String → LocalFS → Except ε Unit × LocalFS)
    (skipCleanup : Bool) (tmpName : String) (fs : LocalFS) :
    Except ε String × LocalFS :=
  let fs₁ : LocalFS := fun p => if p = tmpName then some 0 else fs p
  match execute tmpName fs₁ with
  | (Except.error e, fs₂) => (Except.error e, fs₂)
  | (Except.ok _, fs₂) =>
    if skipCleanup then (Except.ok tmpName, fs₂)
    else (Except.ok tmpName, fun p => if p = tmpName then none else fs₂ p)

/-- `Uploads.withTempFile(upload, execute = null)`: fetch the record,
resolve its disk, then delegate to `withTempFile` with a composite
callback that streams the disk file into the temp path and then runs the
caller's `execute` (when provided), and with `skipCleanup` set exactly
when no `execute` callback was provided. -/
def uploadsWithTempFile (svc : Svc) (o : Oracle) (st : SysState) (id : Nat)
    (execute : Option (String → LocalFS → Except Nat Unit × LocalFS))
    (tmpName : String) (lfs : LocalFS) : Except TmpErr String × LocalFS :=
  match st.repo id with
  | none => (Except.error TmpErr.notFound, lfs)
  | some uploadedFile =>
    let d := resolvedDiskName svc uploadedFile.disk
    withTempFile
      (fun path fs =>
        match o.readOk d uploadedFile.path, st.files (d, uploadedFile.path) with
        | true, some content =>
          let fs₁ : LocalFS := fun p => if p = path then some content else fs p
          match execute with
          | some ex =>
            match ex path fs₁ with
            | (Except.ok _, fs₂) => (Except.ok (), fs₂)
            | (Except.error code, fs₂) => (Except.error (TmpErr.callback code), fs₂)
          | none => (Except.ok (), fs₁)
        | _, _ => (Except.error TmpErr.readFailed, fs))
      execute.isNone tmpName lfs

/-- An empty local filesystem. -/
def lfsW : LocalFS := fun _ => none

/-- A callback that rejects without touching the filesystem. -/
def failingCallbackW : String → LocalFS → Except Nat Unit × LocalFS :=
  fun _ fs => (Except.error 7, fs)

/-- Counterexample to C2 as stated: when the `execute` callback rejects,
its error propagates from the `await` inside `withTempFile` before the
cleanup callback runs, so the temp path still exists (holding the
materialized bytes) immediately after the call returns. -/
theorem withTempFile_leak_counterexample :
    (uploadsWithTempFile svcW oW stW 1 (some failingCallbackW) "/tmp/t1" lfsW).1 =
      Except.error (TmpErr.callback 7) ∧
    (uploadsWithTempFile svcW oW stW 1 (some failingCallbackW) "/tmp/t1" lfsW).2
      "/tmp/t1" = some 5 :=
  ⟨rfl, rfl⟩

/-- C2 (amended): `withTempFile(upload, execute)` with a callback deletes
the temporary file before the call returns whenever the callback
completes successfully; if the callback throws or rejects, the error
propagates to the caller and the cleanup step is skipped (the temp file is
not deleted). -/
theorem withTempFile_cleanup_on_success (svc : Svc) (o : Oracle) (st : SysState)
    (id : Nat) (uploadedFile : UploadedFile) (content : Nat)
    (ex : String → LocalFS → Except Nat Unit × LocalFS) (tmpName : String)
    (lfs : LocalFS) (hrepo : st.repo id = some uploadedFile)
    (hr : o.readOk (resolvedDiskName svc uploadedFile.disk) uploadedFile.path =
      true)
    (hf : st.files (resolvedDiskName svc uploadedFile.disk, uploadedFile.path) =
      some content)
    (hex : ∀ p fs, (ex p fs).1 = Except.ok ()) :
    (uploadsWithTempFile svc o st id (some ex) tmpName lfs).1 =
      Except.ok tmpName ∧
    (uploadsWithTempFile svc o st id (some ex) tmpName lfs).2 tmpName = none ∧
    (∀ e fs₂,
      (uploadsWithTempFile svc o st id (some ex) tmpName lfs) =
        (Except.error (TmpErr.callback e), fs₂) → False) := by
  have h : ∀ fs : LocalFS,
      (uploadsWithTempFile svc o st id (some ex) tmpName fs).1 =
        Except.ok tmpName ∧
      (uploadsWithTempFile svc o st id (some ex) tmpName fs).2 tmpName = none := by
    intro fs
    simp only [uploadsWithTempFile, hrepo, withTempFile, hr, hf]
    rcases hx : ex tmpName (fun p =>
        if p = tmpName then some content
        else if p = tmpName then some 0 else fs p) with ⟨r, fs₂⟩
    have hr1 := hex tmpName (fun p =>
      if p = tmpName then some content
      else if p = tmpName then some 0 else fs p)
    rw [hx] at hr1
    simp only at hr1
    subst hr1
    simp [hx, Option.isNone]
  refine ⟨(h lfs).1, (h lfs).2, ?_⟩
  intro e fs₂ heq
  have := (h lfs).1
  rw [heq] at this
  simp at this

/-- A callback that succeeds without touching the filesystem. -/
def okCallbackW : String → LocalFS → Except Nat Unit × LocalFS :=
  fun _ fs => (Except.ok (), fs)

/-- Witness for C2's amended statement: with a succeeding callback the
temp path is gone after the call returns. -/
theorem withTempFile_cleanup_on_success_witness :
    (uploadsWithTempFile svcW oW stW 1 (some okCallbackW) "/tmp/t1" lfsW).1 =
      Except.ok "/tmp/t1" ∧
    (uploadsWithTempFile svcW oW stW 1 (some okCallbackW) "/tmp/t1" lfsW).2
      "/tmp/t1" = none ∧
    (∀ e fs₂,
      (uploadsWithTempFile svcW oW stW 1 (some okCallbackW) "/tmp/t1" lfsW) =
        (Except.error (TmpErr.callback e), fs₂) → False) :=
  withTempFile_cleanup_on_success svcW oW stW 1 fileW 5 okCallbackW "/tmp/t1"
    lfsW rfl rfl rfl (fun _ _ => rfl)

end NodeUploads
